import Mathlib

/-!
Shallow embedding of the RNOKPP library (`src/rnokpp/__init__.py`), a codec
for Ukrainian 10-digit taxpayer identification numbers, together with proofs
of the specification claims.

Modelling conventions:

* Python `datetime.date` values are modelled as `Int` day offsets from the
  library's `BASE_DATE` (1900-01-01): ordering, `date + timedelta(days=k)`
  and `(d2 - d1).days` on dates correspond exactly to integer ordering,
  addition and subtraction of day offsets (proleptic Gregorian ordinals).
  Thus `BASE_DATE` itself is day `0`, 1899-12-31 is day `-1`, and
  2000-01-01 is day `36524`.
* Python exceptions become an `Except RNOKPPError` result.
* Python's per-character `int(c)` conversion accepts every Unicode decimal
  digit (category Nd), not only ASCII `0`-`9`; it is embedded by `pyIntChar`
  below using the table of Nd ranges.
* The random draws made by the generators (`random.randint`, `random.choice`)
  are modelled as explicit parameters, so theorems quantify over every
  possible outcome of the draws.
-/

/-- Embeds the `Gender` enum. -/
inductive Gender where
  | male
  | female
deriving DecidableEq, Repr

/-- Embeds the `Details` class: `valid` flag, gender, and birthday
(as an `Int` day offset from `BASE_DATE`). -/
structure Details where
  valid : Bool
  gender : Gender
  birthday : Int
deriving DecidableEq, Repr

/-- Embeds the exception hierarchy rooted at `RNOKPPError`; the date-carrying
exceptions keep their date argument. -/
inductive RNOKPPError where
  | invalidControlDigit
  | numberGreaterThanZero
  | moreThan10Digits
  | lessThan10Digits
  | stringDoesNotConsistOfDigits
  | notAllowedDate (date : Int)
  | dateInFuture (date : Int)
deriving DecidableEq, Repr

/-- Embeds `BASE_DATE = datetime.date(1900, 1, 1)`: day offset 0 in the
day-offset model of dates. -/
def BASE_DATE : Int := 0

/-- Embeds `MALE_DIGITS = [1, 3, 5, 7, 9]`. -/
def MALE_DIGITS : List Nat := [1, 3, 5, 7, 9]

/-- Embeds `FEMALE_DIGITS = [0, 2, 4, 6, 8]`. -/
def FEMALE_DIGITS : List Nat := [0, 2, 4, 6, 8]

/-- First code points of the runs of ten consecutive Unicode decimal digits
(category Nd), which are exactly the single characters accepted by Python's
`int(c)`. The ASCII run `0x30` comes first. -/
def decimalDigitRangeStarts : List Nat :=
  [0x30, 0x660, 0x6F0, 0x7C0, 0x966, 0x9E6, 0xA66, 0xAE6, 0xB66, 0xBE6,
   0xC66, 0xCE6, 0xD66, 0xDE6, 0xE50, 0xED0, 0xF20, 0x1040, 0x1090, 0x17E0,
   0x1810, 0x1946, 0x19D0, 0x1A80, 0x1A90, 0x1B50, 0x1BB0, 0x1C40, 0x1C50,
   0xA620, 0xA8D0, 0xA900, 0xA9D0, 0xA9F0, 0xAA50, 0xABF0, 0xFF10,
   0x104A0, 0x10D30, 0x11066, 0x110F0, 0x11136, 0x111D0, 0x112F0, 0x11450,
   0x114D0, 0x11650, 0x116C0, 0x11730, 0x118E0, 0x11950, 0x11C50, 0x11D50,
   0x11DA0, 0x16A60, 0x16B50, 0x1D7CE, 0x1D7D8, 0x1D7E2, 0x1D7EC, 0x1D7F6,
   0x1E140, 0x1E2F0, 0x1E950, 0x1FBF0]

/-- Embeds Python's `int(c)` on a single character `c`: `some d` with the
digit value when `c` is a Unicode decimal digit, `none` (a `ValueError`)
otherwise. -/
def pyIntChar (c : Char) : Option Nat :=
  (decimalDigitRangeStarts.find? fun s => s ≤ c.toNat && c.toNat ≤ s + 9).map
    fun s => c.toNat - s

/-- An ASCII digit `0`-`9` (the spec's notion of digit character). -/
def isAsciiDigit (c : Char) : Bool :=
  Char.ofNat 0x30 ≤ c && c ≤ Char.ofNat 0x39

/-- Embeds the list comprehension `[int(c) for c in rnokpp]`: `none` when
some character raises `ValueError`, otherwise the digit values in order. -/
def charsToDigits : List Char → Option (List Nat)
  | [] => some []
  | c :: cs =>
    match pyIntChar c, charsToDigits cs with
    | some d, some ds => some (d :: ds)
    | _, _ => none

/-- Embeds `_parse_rnokpp`: convert every character to a digit (raising
`StringDoesNotConsistOfDigits` if any conversion fails), then check the
length against 10. -/
def _parse_rnokpp (rnokpp : String) : Except RNOKPPError (List Nat) :=
  match charsToDigits rnokpp.data with
  | none => .error .stringDoesNotConsistOfDigits
  | some digits =>
    if digits.length > 10 then .error .moreThan10Digits
    else if digits.length < 10 then .error .lessThan10Digits
    else .ok digits

/-- Embeds `_calculate_control_digit`: the weighted sum of the first nine
digits with weights `[-1, 5, 7, 9, 4, 6, 10, 5, 7]`, reduced `% 11` then
`% 10`. Callers always pass a list of at least nine elements, so the
out-of-range default of `getD` is never consulted. Both Python's `%` and
Lean's `Int.emod` return a non-negative remainder for a positive modulus. -/
def _calculate_control_digit (digits : List Nat) : Int :=
  ((digits.getD 0 0 : Int) * (-1)
    + (digits.getD 1 0 : Int) * 5
    + (digits.getD 2 0 : Int) * 7
    + (digits.getD 3 0 : Int) * 9
    + (digits.getD 4 0 : Int) * 4
    + (digits.getD 5 0 : Int) * 6
    + (digits.getD 6 0 : Int) * 10
    + (digits.getD 7 0 : Int) * 5
    + (digits.getD 8 0 : Int) * 7) % 11 % 10

/-- Embeds `get_details`: parse, check the control digit, then read the
gender from digit 8's parity and the birthday from the leading five digits
as a 1-based day count from `BASE_DATE`. -/
def get_details (rnokpp : String) : Except RNOKPPError Details :=
  match _parse_rnokpp rnokpp with
  | .error e => .error e
  | .ok digits =>
    let gender_digit := digits.getD 8 0
    let control_digit := digits.getD 9 0
    let calculated_control := _calculate_control_digit (digits.take 9)
    if (control_digit : Int) ≠ calculated_control then
      .error .invalidControlDigit
    else
      let gender := if gender_digit % 2 = 1 then Gender.male else Gender.female
      let days_since_base :=
        digits.getD 0 0 * 10000 + digits.getD 1 0 * 1000 + digits.getD 2 0 * 100
          + digits.getD 3 0 * 10 + digits.getD 4 0
      .ok ⟨true, gender, (days_since_base : Int) - 1⟩

/-- Embeds `is_valid`: the `valid` flag of `get_details`, with every
`RNOKPPError` swallowed into `false`. -/
def is_valid (rnokpp : String) : Bool :=
  match get_details rnokpp with
  | .ok details => details.valid
  | .error _ => false

/-- The character of a single digit value (`str(d)` for `0 ≤ d ≤ 9`). -/
def digitToChar (d : Nat) : Char :=
  Char.ofNat (0x30 + d)

/-- The string whose characters are the given digit values in order. -/
def renderDigits (ds : List Nat) : String :=
  String.mk (ds.map digitToChar)

/-- Embeds `f"{n:05d}"` at the digit level: the decimal digits of `n`, most
significant first, left-padded with `0` to at least five digits. -/
def pad5 (n : Nat) : List Nat :=
  let ds := (Nat.digits 10 n).reverse
  List.replicate (5 - ds.length) 0 ++ ds

/-- The outcomes of the four random draws made inside `generate_rnokpp`:
three `random.randint(0, 9)` digits and the index that `random.choice`
picks in the 5-element gender digit list. -/
structure Draw where
  r1 : Fin 10
  r2 : Fin 10
  r3 : Fin 10
  genderIdx : Fin 5
deriving DecidableEq, Repr

/-- Embeds `random.choice(MALE_DIGITS)` / `random.choice(FEMALE_DIGITS)`
given the drawn index. -/
def genderDigit (gender : Gender) (i : Fin 5) : Nat :=
  match gender with
  | .male => MALE_DIGITS.getD i.val 0
  | .female => FEMALE_DIGITS.getD i.val 0

/-- Embeds `generate_rnokpp(date, gender)`. `today` is the value of
`datetime.date.today()` at call time and `dr` the outcome of the random
draws; both are explicit parameters of the model. The date range is
checked, the 1-based day count is formatted to five zero-padded digits,
the three random digits and the gender digit are appended, and the control
digit of those nine digits closes the string. -/
def generate_rnokpp (today : Int) (dr : Draw) (date : Int) (gender : Gender) :
    Except RNOKPPError String :=
  if date < BASE_DATE then .error (.notAllowedDate date)
  else if date > today then .error (.dateInFuture date)
  else
    let days_since_base := (date - BASE_DATE + 1).toNat
    let first9 : List Nat :=
      pad5 days_since_base ++ [dr.r1.val, dr.r2.val, dr.r3.val, genderDigit gender dr.genderIdx]
    let control := _calculate_control_digit first9
    .ok (renderDigits (first9 ++ [control.toNat]))

/-- The outcomes of the random draws made inside one call of
`generate_random_rnokpp`: the `random.randint(0, days_range)` day count,
the `Gender.random()` coin, and the draws of the inner `generate_rnokpp`. -/
structure RandomDraw where
  days : Nat
  gender : Gender
  draw : Draw
deriving DecidableEq, Repr

/-- Embeds `generate_random_rnokpp()`: derive the random date from the drawn
day count and delegate to `generate_rnokpp` with the drawn gender. -/
def generate_random_rnokpp (today : Int) (rd : RandomDraw) :
    Except RNOKPPError String :=
  generate_rnokpp today rd.draw (BASE_DATE + (rd.days : Int)) rd.gender

/-- Embeds the list comprehension in `generate_random_rnokpp_n`: the calls
run left to right and the first exception aborts the whole list. -/
def generateList (today : Int) (env : Nat → RandomDraw) :
    List Nat → Except RNOKPPError (List String)
  | [] => .ok []
  | i :: is =>
    match generate_random_rnokpp today (env i) with
    | .error e => .error e
    | .ok s =>
      match generateList today env is with
      | .error e => .error e
      | .ok l => .ok (s :: l)

/-- Embeds `generate_random_rnokpp_n(count)`: reject a non-positive count
before generating anything, then make `count` independent calls. `env i`
is the outcome of the random draws of the `i`-th call. -/
def generate_random_rnokpp_n (today : Int) (env : Nat → RandomDraw)
    (count : Int) : Except RNOKPPError (List String) :=
  if count ≤ 0 then .error .numberGreaterThanZero
  else generateList today env (List.range count.toNat)

/-! ### Basic lemmas about characters, parsing and rendering -/

/-- Rendering a digit value below 10 gives a character that `int(c)`
converts back to the same value. -/
theorem pyIntChar_digitToChar {d : Nat} (hd : d < 10) :
    pyIntChar (digitToChar d) = some d := by
  interval_cases d <;> decide

/-- The character list of a rendered digit string. -/
theorem renderDigits_data (ds : List Nat) :
    (renderDigits ds).data = ds.map digitToChar := rfl

/-- Converting the rendering of a list of digit values below 10 recovers
the list. -/
theorem charsToDigits_map {ds : List Nat} (h : ∀ d ∈ ds, d < 10) :
    charsToDigits (ds.map digitToChar) = some ds := by
  induction ds with
  | nil => rfl
  | cons d ds ih =>
    have hd : d < 10 := h d (by simp)
    have hds : ∀ x ∈ ds, x < 10 := fun x hx => h x (by simp [hx])
    simp only [List.map_cons, charsToDigits, pyIntChar_digitToChar hd, ih hds]

/-- The digit conversion fails exactly when some character is not accepted
by `int(c)`. -/
theorem charsToDigits_eq_none_iff (cs : List Char) :
    charsToDigits cs = none ↔ ∃ c ∈ cs, pyIntChar c = none := by
  induction cs with
  | nil => simp [charsToDigits]
  | cons c cs ih =>
    cases hc : pyIntChar c with
    | none => simp [charsToDigits, hc]
    | some d =>
      cases hcs : charsToDigits cs with
      | none =>
        simp only [charsToDigits, hc, hcs, List.mem_cons]
        constructor
        · intro _
          obtain ⟨x, hx, hnone⟩ := ih.mp hcs
          exact ⟨x, Or.inr hx, hnone⟩
        · intro _; trivial
      | some ds =>
        simp only [charsToDigits, hc, hcs, List.mem_cons]
        constructor
        · intro h; exact absurd h (by simp)
        · rintro ⟨x, rfl | hx, hnone⟩
          · simp [hc] at hnone
          · exact absurd (ih.mpr ⟨x, hx, hnone⟩) (by simp [hcs])

/-- Successful digit conversion preserves the length. -/
theorem charsToDigits_length {cs : List Char} {ds : List Nat}
    (h : charsToDigits cs = some ds) : ds.length = cs.length := by
  induction cs generalizing ds with
  | nil => simp [charsToDigits] at h; simp [← h]
  | cons c cs ih =>
    simp only [charsToDigits] at h
    cases hc : pyIntChar c with
    | none => simp [hc] at h
    | some d =>
      cases hcs : charsToDigits cs with
      | none => simp [hc, hcs] at h
      | some ds' =>
        simp only [hc, hcs] at h
        cases h
        simp [ih hcs]

/-- Parsing a rendered list of 10 digit values below 10 succeeds and
returns exactly those values. -/
theorem parse_renderDigits {ds : List Nat} (hlen : ds.length = 10)
    (h : ∀ d ∈ ds, d < 10) :
    _parse_rnokpp (renderDigits ds) = .ok ds := by
  unfold _parse_rnokpp
  rw [renderDigits_data, charsToDigits_map h]
  simp [hlen]

/-! ### Control digit range -/

/-- The control digit is never negative: the final `% 10` has a positive
modulus and both Python's `%` and `Int.emod` return non-negative remainders
for positive moduli. -/
theorem control_digit_nonneg (digits : List Nat) :
    0 ≤ _calculate_control_digit digits :=
  Int.emod_nonneg _ (by norm_num)

/-- The control digit is below 10. -/
theorem control_digit_lt (digits : List Nat) :
    _calculate_control_digit digits < 10 :=
  Int.emod_lt_of_pos _ (by norm_num)

/-! ### The zero-padded five-digit day count -/

/-- `Nat.ofDigits` of a run of zeros vanishes. -/
theorem ofDigits_replicate_zero (b k : Nat) :
    Nat.ofDigits b (List.replicate k 0) = 0 := by
  induction k with
  | zero => rfl
  | succ k ih => simp [List.replicate_succ, Nat.ofDigits_cons, ih]

/-- A number below `10 ^ 5` has at most five decimal digits. -/
theorem digits_len_le_five {n : Nat} (h : n < 100000) :
    (Nat.digits 10 n).length ≤ 5 := by
  by_contra hlen
  push_neg at hlen
  rcases Nat.eq_zero_or_pos n with rfl | hn
  · simp [Nat.digits] at hlen
  · have h1 : (10 : Nat) ^ (Nat.digits 10 n).length ≤ 10 * n :=
      Nat.base_pow_length_digits_le 10 n (by norm_num) hn.ne'
    have h2 : (10 : Nat) ^ 6 ≤ 10 ^ (Nat.digits 10 n).length :=
      Nat.pow_le_pow_right (by norm_num) hlen
    omega

/-- Every entry of `pad5 n` is a decimal digit. -/
theorem pad5_mem_lt {n d : Nat} (h : d ∈ pad5 n) : d < 10 := by
  unfold pad5 at h
  simp only [List.mem_append, List.mem_replicate, List.mem_reverse] at h
  rcases h with ⟨_, rfl⟩ | h
  · norm_num
  · exact Nat.digits_lt_base (by norm_num) h

/-- For day counts below `10 ^ 5`, `pad5` produces exactly five decimal
digits whose value, read most significant first, is the day count. -/
theorem pad5_eq {n : Nat} (h : n < 100000) :
    ∃ a b c d e, pad5 n = [a, b, c, d, e] ∧
      a * 10000 + b * 1000 + c * 100 + d * 10 + e = n := by
  have hlen5 : (pad5 n).length = 5 := by
    have := digits_len_le_five h
    simp only [pad5, List.length_append, List.length_replicate, List.length_reverse]
    omega
  have hval : Nat.ofDigits 10 (pad5 n).reverse = n := by
    have hrev : (pad5 n).reverse
        = Nat.digits 10 n ++ List.replicate (5 - (Nat.digits 10 n).length) 0 := by
      simp [pad5]
    rw [hrev, Nat.ofDigits_append, Nat.ofDigits_digits, ofDigits_replicate_zero]
    simp
  rcases hpad : pad5 n with _ | ⟨a, _ | ⟨b, _ | ⟨c, _ | ⟨d, _ | ⟨e, _ | ⟨f, t⟩⟩⟩⟩⟩⟩ <;>
    rw [hpad] at hlen5 hval <;> try simp at hlen5
  refine ⟨a, b, c, d, e, rfl, ?_⟩
  rw [show [a, b, c, d, e].reverse = [e, d, c, b, a] from rfl] at hval
  simp [Nat.ofDigits_cons, Nat.ofDigits_nil] at hval
  omega

/-! ### Decoding a rendered digit string -/

/-- Decoding any rendered 10-digit string whose last digit matches the
control digit of its first nine digits: the result is valid, the gender is
read off the parity of digit 8, and the birthday is the 1-based day count
in the first five digits, minus one, in days from `BASE_DATE`. -/
theorem get_details_renderDigits
    (d0 d1 d2 d3 d4 d5 d6 d7 d8 d9 : Nat)
    (h0 : d0 < 10) (h1 : d1 < 10) (h2 : d2 < 10) (h3 : d3 < 10) (h4 : d4 < 10)
    (h5 : d5 < 10) (h6 : d6 < 10) (h7 : d7 < 10) (h8 : d8 < 10) (h9 : d9 < 10)
    (hc : (d9 : Int) = _calculate_control_digit [d0, d1, d2, d3, d4, d5, d6, d7, d8]) :
    get_details (renderDigits [d0, d1, d2, d3, d4, d5, d6, d7, d8, d9]) =
      .ok ⟨true, if d8 % 2 = 1 then Gender.male else Gender.female,
        ((d0 * 10000 + d1 * 1000 + d2 * 100 + d3 * 10 + d4 : Nat) : Int) - 1⟩ := by
  have hparse : _parse_rnokpp (renderDigits [d0, d1, d2, d3, d4, d5, d6, d7, d8, d9]) =
      .ok [d0, d1, d2, d3, d4, d5, d6, d7, d8, d9] := by
    refine parse_renderDigits (by simp) ?_
    intro x hx
    simp only [List.mem_cons, List.not_mem_nil, or_false] at hx
    rcases hx with rfl | rfl | rfl | rfl | rfl | rfl | rfl | rfl | rfl | rfl <;> assumption
  unfold get_details
  simp only [hparse, List.getD_cons_zero, List.getD_cons_succ, List.take_succ_cons,
    List.take_zero, ← hc, ne_eq, not_true_eq_false, if_false]

/-! ### Generation round-trip -/

/-- The drawn gender digit is a decimal digit. -/
theorem genderDigit_lt (gender : Gender) (i : Fin 5) : genderDigit gender i < 10 := by
  cases gender <;> fin_cases i <;> decide

/-- The drawn gender digit has the parity that decodes back to the drawn
gender: the male digits are odd, the female digits even. -/
theorem genderDigit_parity (gender : Gender) (i : Fin 5) :
    (if genderDigit gender i % 2 = 1 then Gender.male else Gender.female) = gender := by
  cases gender <;> fin_cases i <;> decide

/-- Generation succeeds on every date in `[BASE_DATE, today]` and decoding
its output recovers the requested gender and date, for every outcome of
the random draws. The bound `today ≤ 99998` holds for every real calendar
day up to the year 2173, when the 1-based day count would outgrow five
digits. -/
theorem generate_rnokpp_roundtrip (today : Int) (dr : Draw) (date : Int)
    (gender : Gender) (hd0 : 0 ≤ date) (hdt : date ≤ today) (ht : today ≤ 99998) :
    ∃ s, generate_rnokpp today dr date gender = .ok s ∧
      get_details s = .ok ⟨true, gender, date⟩ := by
  have hn : (date - BASE_DATE + 1).toNat < 100000 := by
    simp only [BASE_DATE]; omega
  obtain ⟨a, b, c, d, e, hpad, hsum⟩ := pad5_eq hn
  have ha : a < 10 := pad5_mem_lt (by rw [hpad]; simp)
  have hb : b < 10 := pad5_mem_lt (by rw [hpad]; simp)
  have hcd : c < 10 := pad5_mem_lt (by rw [hpad]; simp)
  have hdd : d < 10 := pad5_mem_lt (by rw [hpad]; simp)
  have he : e < 10 := pad5_mem_lt (by rw [hpad]; simp)
  refine ⟨renderDigits [a, b, c, d, e, dr.r1.val, dr.r2.val, dr.r3.val,
      genderDigit gender dr.genderIdx,
      (_calculate_control_digit [a, b, c, d, e, dr.r1.val, dr.r2.val, dr.r3.val,
        genderDigit gender dr.genderIdx]).toNat], ?_, ?_⟩
  · unfold generate_rnokpp
    rw [if_neg (by simp only [BASE_DATE]; omega), if_neg (by omega)]
    simp [hpad]
  · have hctl0 : 0 ≤ _calculate_control_digit [a, b, c, d, e, dr.r1.val, dr.r2.val,
        dr.r3.val, genderDigit gender dr.genderIdx] := control_digit_nonneg _
    have hctl10 : _calculate_control_digit [a, b, c, d, e, dr.r1.val, dr.r2.val,
        dr.r3.val, genderDigit gender dr.genderIdx] < 10 := control_digit_lt _
    rw [get_details_renderDigits a b c d e dr.r1.val dr.r2.val dr.r3.val
      (genderDigit gender dr.genderIdx) _ ha hb hcd hdd he dr.r1.isLt dr.r2.isLt
      dr.r3.isLt (genderDigit_lt gender dr.genderIdx) (by omega)
      (Int.toNat_of_nonneg hctl0)]
    rw [genderDigit_parity, hsum]
    have : (((date - BASE_DATE + 1).toNat : Nat) : Int) = date + 1 := by
      simp only [BASE_DATE]; omega
    rw [this]
    norm_num

/-! ### Parse and validity characterizations -/

/-- Parsing reports `StringDoesNotConsistOfDigits` exactly when some
character is rejected by `int(c)`. -/
theorem parse_digit_error_iff (s : String) :
    _parse_rnokpp s = .error .stringDoesNotConsistOfDigits ↔
      ∃ c ∈ s.data, pyIntChar c = none := by
  unfold _parse_rnokpp
  cases hcd : charsToDigits s.data with
  | none => simp [(charsToDigits_eq_none_iff s.data).mp hcd]
  | some ds =>
    have hno : ¬∃ c ∈ s.data, pyIntChar c = none := fun hex => by
      have := (charsToDigits_eq_none_iff s.data).mpr hex
      rw [hcd] at this
      cases this
    dsimp only
    split_ifs <;> simp [hno]

/-- Every successfully decoded `Details` value has `valid = true`. -/
theorem get_details_valid {s : String} {det : Details}
    (h : get_details s = .ok det) : det.valid = true := by
  unfold get_details at h
  cases hp : _parse_rnokpp s with
  | error e => rw [hp] at h; exact absurd h (by simp)
  | ok digits =>
    rw [hp] at h
    dsimp only at h
    by_cases hcond :
        ((digits.getD 9 0 : Int) ≠ _calculate_control_digit (digits.take 9))
    · rw [if_pos hcond] at h
      exact absurd h (by simp)
    · rw [if_neg hcond] at h
      injection h with h2
      rw [← h2]

/-! ### Batch generation -/

/-- When every drawn day count stays within `[0, today]` (as
`random.randint(0, days_range)` guarantees), every call in the batch
succeeds, so the whole batch succeeds, one valid string per call. -/
theorem generateList_ok (today : Int) (env : Nat → RandomDraw)
    (ht : today ≤ 99998)
    (henv : ∀ i, ((env i).days : Int) ≤ today) (l : List Nat) :
    ∃ out, generateList today env l = .ok out ∧ out.length = l.length ∧
      ∀ s ∈ out, is_valid s = true := by
  induction l with
  | nil => exact ⟨[], rfl, rfl, by simp⟩
  | cons i is ih =>
    obtain ⟨out, hout, hlen, hval⟩ := ih
    obtain ⟨s, hgen, hdet⟩ := generate_rnokpp_roundtrip today (env i).draw
      (BASE_DATE + ((env i).days : Int)) (env i).gender
      (by simp only [BASE_DATE]; positivity)
      (by simpa only [BASE_DATE, zero_add] using henv i) ht
    have hvs : is_valid s = true := by
      unfold is_valid
      rw [hdet]
    refine ⟨s :: out, ?_, by simp [hlen], ?_⟩
    · unfold generateList generate_random_rnokpp
      rw [hgen, hout]
    · intro x hx
      rcases List.mem_cons.mp hx with rfl | hx
      · exact hvs
      · exact hval x hx

/-! ### Claims -/

/-- C1: Round-trip — for every date `D` with `BASE_DATE ≤ D ≤ today`, both
genders `G`, and every outcome of the internal random draws,
`get_details (generate_rnokpp D G)` succeeds and returns `Details` with
`valid = true`, gender `G`, and birthday `D`. (`today ≤ 99998` holds for
every actual calendar day until the year 2173.) -/
theorem c1_roundtrip (today date : Int) (dr : Draw) (gender : Gender)
    (hd0 : BASE_DATE ≤ date) (hdt : date ≤ today) (ht : today ≤ 99998) :
    ∃ s, generate_rnokpp today dr date gender = .ok s ∧
      get_details s = .ok ⟨true, gender, date⟩ :=
  generate_rnokpp_roundtrip today dr date gender hd0 hdt ht

/-- Witness for C1 at the date 2000-01-01 (day offset 36524), with
2026-10-12 (day offset 46305) as the current date. -/
theorem c1_roundtrip_witness :
    ∃ s, generate_rnokpp 46305 ⟨3, 1, 4, 2⟩ 36524 Gender.male = .ok s ∧
      get_details s = .ok ⟨true, Gender.male, 36524⟩ :=
  c1_roundtrip 46305 36524 ⟨3, 1, 4, 2⟩ Gender.male (by norm_num [BASE_DATE])
    (by norm_num) (by norm_num)

/-- C2: Decode postcondition — for every 10-digit input whose last digit
equals the control digit of the first nine, decoding succeeds with
`valid = true`, gender male exactly when digit 8 is odd, and birthday
`BASE_DATE + (N - 1)` days where `N` is the 5-digit day count in digits
0-4; no range restriction is applied to the date, so `N = 0` reaches the
day before `BASE_DATE`. -/
theorem c2_decode_postcondition (d0 d1 d2 d3 d4 d5 d6 d7 d8 d9 : Nat)
    (h0 : d0 ≤ 9) (h1 : d1 ≤ 9) (h2 : d2 ≤ 9) (h3 : d3 ≤ 9) (h4 : d4 ≤ 9)
    (h5 : d5 ≤ 9) (h6 : d6 ≤ 9) (h7 : d7 ≤ 9) (h8 : d8 ≤ 9) (h9 : d9 ≤ 9)
    (hc : (d9 : Int) = _calculate_control_digit [d0, d1, d2, d3, d4, d5, d6, d7, d8]) :
    get_details (renderDigits [d0, d1, d2, d3, d4, d5, d6, d7, d8, d9]) =
      .ok ⟨true, if d8 % 2 = 1 then Gender.male else Gender.female,
        ((d0 * 10000 + d1 * 1000 + d2 * 100 + d3 * 10 + d4 : Nat) : Int) - 1⟩ :=
  get_details_renderDigits d0 d1 d2 d3 d4 d5 d6 d7 d8 d9 (by omega) (by omega)
    (by omega) (by omega) (by omega) (by omega) (by omega) (by omega) (by omega)
    (by omega) hc

/-- Witness for C2 at the all-zero input: `"0000000000"` decodes with
`valid = true`, gender female, and birthday one day before `BASE_DATE`
(1899-12-31, day offset -1). -/
theorem c2_decode_postcondition_witness :
    renderDigits [0, 0, 0, 0, 0, 0, 0, 0, 0, 0] = "0000000000" ∧
    get_details "0000000000" = .ok ⟨true, Gender.female, -1⟩ := by
  have h := c2_decode_postcondition 0 0 0 0 0 0 0 0 0 0 (by norm_num) (by norm_num)
    (by norm_num) (by norm_num) (by norm_num) (by norm_num) (by norm_num)
    (by norm_num) (by norm_num) (by norm_num) (by decide)
  have hrender : renderDigits [0, 0, 0, 0, 0, 0, 0, 0, 0, 0] = "0000000000" := by
    decide
  refine ⟨hrender, ?_⟩
  rw [hrender] at h
  simpa using h

/-- C3 counterexample: the string `"٣652504575"` — the valid number
`"3652504575"` with its first digit replaced by the Arabic-Indic digit
three (U+0663) — contains a character that is not an ASCII digit, yet
parsing does not fail with `StringDoesNotConsistOfDigits`: Python's
`int(c)` accepts every Unicode decimal digit, so the whole string parses
(and even decodes) successfully. -/
theorem c3_counterexample :
    (∃ c ∈ ("٣652504575" : String).data, isAsciiDigit c = false) ∧
    _parse_rnokpp "٣652504575" = .ok [3, 6, 5, 2, 5, 0, 4, 5, 7, 5] ∧
    get_details "٣652504575" = .ok ⟨true, Gender.male, 36524⟩ := by
  refine ⟨⟨'٣', by decide, by decide⟩, rfl, rfl⟩

/-- C3 (amended): parsing (and hence decoding) fails with
`StringDoesNotConsistOfDigits` if and only if some character of the input
is not a Unicode decimal digit, i.e. is rejected by Python's `int(c)`
(`pyIntChar c = none`): whitespace, signs, letters, and any other
non-decimal-digit character anywhere in the string — but ASCII and
non-ASCII decimal digits alike are accepted. -/
theorem c3_not_all_digits_iff (s : String) :
    _parse_rnokpp s = .error .stringDoesNotConsistOfDigits ↔
      ∃ c ∈ s.data, pyIntChar c = none :=
  parse_digit_error_iff s

/-- Witness for C3 (amended) at two concrete inputs: a leading space makes
parsing fail with the digit error, and a trailing plus sign does too. -/
theorem c3_not_all_digits_iff_witness :
    _parse_rnokpp " 234567890" = .error .stringDoesNotConsistOfDigits ∧
    _parse_rnokpp "1234567890+" = .error .stringDoesNotConsistOfDigits :=
  ⟨(c3_not_all_digits_iff " 234567890").mpr ⟨' ', by decide, by decide⟩,
   (c3_not_all_digits_iff "1234567890+").mpr ⟨'+', by decide, by decide⟩⟩

/-- C4: Checksum determinism and range — for every list of nine digits in
`[0, 9]`, `_calculate_control_digit` is deterministic (equal inputs give
equal outputs), its output lies in `[0, 9]`, and it is computed as the
weighted sum with weights `[-1, 5, 7, 9, 4, 6, 10, 5, 7]`, reduced modulo
11 with a non-negative remainder, then modulo 10. -/
theorem c4_checksum_deterministic_range (ds : List Nat) (_hlen : ds.length = 9)
    (_hd : ∀ d ∈ ds, d ≤ 9) :
    (∀ ds' : List Nat, ds = ds' →
      _calculate_control_digit ds = _calculate_control_digit ds') ∧
    0 ≤ _calculate_control_digit ds ∧ _calculate_control_digit ds ≤ 9 ∧
    _calculate_control_digit ds =
      ((ds.getD 0 0 : Int) * (-1) + (ds.getD 1 0 : Int) * 5
        + (ds.getD 2 0 : Int) * 7 + (ds.getD 3 0 : Int) * 9
        + (ds.getD 4 0 : Int) * 4 + (ds.getD 5 0 : Int) * 6
        + (ds.getD 6 0 : Int) * 10 + (ds.getD 7 0 : Int) * 5
        + (ds.getD 8 0 : Int) * 7) % 11 % 10 :=
  ⟨fun _ h => by rw [h], control_digit_nonneg ds,
    by have := control_digit_lt ds; omega, rfl⟩

/-- Witness for C4 at the nine leading digits of the known valid number
`"3652504575"`, whose control digit is 5. -/
theorem c4_checksum_deterministic_range_witness :
    (0 ≤ _calculate_control_digit [3, 6, 5, 2, 5, 0, 4, 5, 7] ∧
      _calculate_control_digit [3, 6, 5, 2, 5, 0, 4, 5, 7] ≤ 9) ∧
    _calculate_control_digit [3, 6, 5, 2, 5, 0, 4, 5, 7] = 5 :=
  ⟨⟨(c4_checksum_deterministic_range [3, 6, 5, 2, 5, 0, 4, 5, 7] (by decide)
      (by decide)).2.1,
    (c4_checksum_deterministic_range [3, 6, 5, 2, 5, 0, 4, 5, 7] (by decide)
      (by decide)).2.2.1⟩, by decide⟩

/-- C5: Control-digit collapse — for every nine digits in `[0, 9]` whose
weighted sum modulo 11 equals exactly 10, the computed control digit
collapses to 0 under the second modulo. -/
theorem c5_control_digit_collapse (d0 d1 d2 d3 d4 d5 d6 d7 d8 : Nat)
    (_h0 : d0 ≤ 9) (_h1 : d1 ≤ 9) (_h2 : d2 ≤ 9) (_h3 : d3 ≤ 9) (_h4 : d4 ≤ 9)
    (_h5 : d5 ≤ 9) (_h6 : d6 ≤ 9) (_h7 : d7 ≤ 9) (_h8 : d8 ≤ 9)
    (hmod : ((d0 : Int) * (-1) + (d1 : Int) * 5 + (d2 : Int) * 7
      + (d3 : Int) * 9 + (d4 : Int) * 4 + (d5 : Int) * 6 + (d6 : Int) * 10
      + (d7 : Int) * 5 + (d8 : Int) * 7) % 11 = 10) :
    _calculate_control_digit [d0, d1, d2, d3, d4, d5, d6, d7, d8] = 0 := by
  unfold _calculate_control_digit
  simp only [List.getD_cons_zero, List.getD_cons_succ]
  rw [hmod]
  norm_num

/-- Witness for C5 at the prefix `[1, 0, 0, 0, 0, 0, 0, 0, 0]`: its
weighted sum is -1, whose non-negative remainder modulo 11 is 10, and the
control digit is 0. -/
theorem c5_control_digit_collapse_witness :
    _calculate_control_digit [1, 0, 0, 0, 0, 0, 0, 0, 0] = 0 :=
  c5_control_digit_collapse 1 0 0 0 0 0 0 0 0 (by norm_num) (by norm_num)
    (by norm_num) (by norm_num) (by norm_num) (by norm_num) (by norm_num)
    (by norm_num) (by norm_num) (by decide)

/-- C6: Parsing precedence — the character scan runs before the length
check: any input containing a character rejected by the digit conversion
fails with `StringDoesNotConsistOfDigits` regardless of length; only when
every character converts does parsing report `MoreThan10Digits` for length
above 10 or `LessThan10Digits` for length below 10. -/
theorem c6_parsing_precedence (s : String) :
    ((∃ c ∈ s.data, pyIntChar c = none) →
      _parse_rnokpp s = .error .stringDoesNotConsistOfDigits) ∧
    ((∀ c ∈ s.data, (pyIntChar c).isSome) →
      (10 < s.data.length → _parse_rnokpp s = .error .moreThan10Digits) ∧
      (s.data.length < 10 → _parse_rnokpp s = .error .lessThan10Digits)) := by
  constructor
  · exact fun hex => (parse_digit_error_iff s).mpr hex
  · intro hall
    have hne : charsToDigits s.data ≠ none := fun hnone => by
      obtain ⟨c, hc, hcnone⟩ := (charsToDigits_eq_none_iff s.data).mp hnone
      have := hall c hc
      rw [hcnone] at this
      cases this
    obtain ⟨ds, hds⟩ := Option.ne_none_iff_exists'.mp hne
    have hlen := charsToDigits_length hds
    unfold _parse_rnokpp
    rw [hds]
    dsimp only
    constructor
    · intro h10
      rw [if_pos (by omega)]
    · intro h10
      rw [if_neg (by omega), if_pos (by omega)]

/-- Witness for C6: a length-5 and a length-11 string with a non-digit
character both fail with the digit error, while all-digit strings of wrong
length fail with the corresponding length errors. -/
theorem c6_parsing_precedence_witness :
    _parse_rnokpp "12x45" = .error .stringDoesNotConsistOfDigits ∧
    _parse_rnokpp "123456789x1" = .error .stringDoesNotConsistOfDigits ∧
    _parse_rnokpp "12345678901" = .error .moreThan10Digits ∧
    _parse_rnokpp "123456789" = .error .lessThan10Digits :=
  ⟨(c6_parsing_precedence "12x45").1 ⟨'x', by decide, by decide⟩,
   (c6_parsing_precedence "123456789x1").1 ⟨'x', by decide, by decide⟩,
   ((c6_parsing_precedence "12345678901").2 (by decide)).1 (by decide),
   ((c6_parsing_precedence "123456789").2 (by decide)).2 (by decide)⟩

/-- C7: `is_valid` totality and equivalence — `is_valid` is a total
Boolean function (the embedding swallows every `RNOKPPError`), and it
returns `true` exactly when `get_details` succeeds on the same input. -/
theorem c7_is_valid_iff_decode_ok (s : String) :
    is_valid s = true ↔ ∃ det, get_details s = .ok det := by
  unfold is_valid
  cases h : get_details s with
  | error e => simp
  | ok det => simp [get_details_valid h]

/-- Witness for C7: a valid number makes `is_valid` true via a successful
decode, and a checksum-violating number makes it false because no decode
result exists. -/
theorem c7_is_valid_iff_decode_ok_witness :
    is_valid "3652504575" = true ∧ ¬is_valid "3652504576" = true :=
  ⟨(c7_is_valid_iff_decode_ok "3652504575").mpr ⟨⟨true, Gender.male, 36524⟩, rfl⟩,
   fun h => by
    obtain ⟨det, hdet⟩ := (c7_is_valid_iff_decode_ok "3652504576").mp h
    rw [show get_details "3652504576" = .error .invalidControlDigit from rfl] at hdet
    cases hdet⟩

/-- C8: Encode date bounds — for every date, gender, and draw outcome,
generation fails with `NotAllowedDate date` exactly when the date precedes
`BASE_DATE`, fails with `DateInFuture date` exactly when the date is in
range of the epoch but after `today`, and succeeds otherwise; in
particular both boundary dates `BASE_DATE` and `today` succeed. -/
theorem c8_encode_date_bounds (today : Int) (dr : Draw) (date : Int)
    (gender : Gender) :
    (generate_rnokpp today dr date gender = .error (.notAllowedDate date) ↔
      date < BASE_DATE) ∧
    (generate_rnokpp today dr date gender = .error (.dateInFuture date) ↔
      (BASE_DATE ≤ date ∧ today < date)) ∧
    (BASE_DATE ≤ date → date ≤ today →
      ∃ s, generate_rnokpp today dr date gender = .ok s) := by
  unfold generate_rnokpp
  by_cases h1 : date < BASE_DATE
  · rw [if_pos h1]
    refine ⟨by simp [h1], ?_, ?_⟩
    · simp only [BASE_DATE] at h1 ⊢
      constructor
      · intro h
        cases h
      · intro ⟨ha, _⟩
        omega
    · intro ha _
      exact absurd h1 (not_lt.mpr ha)
  · rw [if_neg h1]
    push_neg at h1
    by_cases h2 : date > today
    · rw [if_pos h2]
      refine ⟨?_, by simp [h1, h2], ?_⟩
      · constructor
        · intro h
          cases h
        · intro h
          exact absurd h (not_lt.mpr h1)
      · intro _ hb
        exact absurd h2 (not_lt.mpr hb)
    · rw [if_neg h2]
      push_neg at h2
      refine ⟨?_, ?_, fun _ _ => ⟨_, rfl⟩⟩
      · constructor
        · intro h
          cases h
        · intro h
          exact absurd h (not_lt.mpr h1)
      · constructor
        · intro h
          cases h
        · intro ⟨_, hb⟩
          exact absurd hb (not_lt.mpr h2)

/-- Witness for C8 with `today = 5`: day 0 (`BASE_DATE`) and day 5
(`today`) succeed, day -1 fails with `NotAllowedDate`, and day 6 fails
with `DateInFuture`. -/
theorem c8_encode_date_bounds_witness :
    (∃ s, generate_rnokpp 5 ⟨0, 0, 0, 0⟩ 0 Gender.male = .ok s) ∧
    (∃ s, generate_rnokpp 5 ⟨0, 0, 0, 0⟩ 5 Gender.male = .ok s) ∧
    generate_rnokpp 5 ⟨0, 0, 0, 0⟩ (-1) Gender.male =
      .error (.notAllowedDate (-1)) ∧
    generate_rnokpp 5 ⟨0, 0, 0, 0⟩ 6 Gender.male = .error (.dateInFuture 6) :=
  ⟨(c8_encode_date_bounds 5 ⟨0, 0, 0, 0⟩ 0 Gender.male).2.2
      (by norm_num [BASE_DATE]) (by norm_num),
   (c8_encode_date_bounds 5 ⟨0, 0, 0, 0⟩ 5 Gender.male).2.2
      (by norm_num [BASE_DATE]) (by norm_num),
   (c8_encode_date_bounds 5 ⟨0, 0, 0, 0⟩ (-1) Gender.male).1.mpr
      (by norm_num [BASE_DATE]),
   (c8_encode_date_bounds 5 ⟨0, 0, 0, 0⟩ 6 Gender.male).2.1.mpr
      ⟨by norm_num [BASE_DATE], by norm_num⟩⟩

/-- C9: Batch generation — for every integer count,
`generate_random_rnokpp_n` fails with `NumberGreaterThanZero` exactly when
the count is non-positive (checked before any generation happens);
otherwise it returns exactly `count` strings, each of which satisfies
`is_valid` (duplicates permitted). The hypotheses say each drawn day count
stays within `[0, today]` as `random.randint(0, days_range)` guarantees,
and that `today` is a real calendar day (before the year 2173). -/
theorem c9_batch_generation (today : Int) (env : Nat → RandomDraw)
    (count : Int) (ht : today ≤ 99998)
    (henv : ∀ i, ((env i).days : Int) ≤ today) :
    (generate_random_rnokpp_n today env count = .error .numberGreaterThanZero ↔
      count ≤ 0) ∧
    (0 < count → ∃ l, generate_random_rnokpp_n today env count = .ok l ∧
      (l.length : Int) = count ∧ ∀ s ∈ l, is_valid s = true) := by
  unfold generate_random_rnokpp_n
  by_cases hc : count ≤ 0
  · rw [if_pos hc]
    exact ⟨by simp [hc], fun hpos => absurd hpos (not_lt.mpr hc)⟩
  · rw [if_neg hc]
    push_neg at hc
    obtain ⟨out, hout, hlen, hval⟩ :=
      generateList_ok today env ht henv (List.range count.toNat)
    refine ⟨?_, fun _ => ⟨out, hout, ?_, hval⟩⟩
    · rw [hout]
      simp only [reduceCtorEq, false_iff, not_le]
      exact hc
    · rw [hlen, List.length_range]
      omega

/-- Witness for C9 with `today = 5`, a constant draw environment, and
counts 3 and 0. -/
theorem c9_batch_generation_witness :
    (∃ l, generate_random_rnokpp_n 5 (fun _ => ⟨2, Gender.female, ⟨7, 0, 3, 1⟩⟩) 3 =
      .ok l ∧ (l.length : Int) = 3 ∧ ∀ s ∈ l, is_valid s = true) ∧
    generate_random_rnokpp_n 5 (fun _ => ⟨2, Gender.female, ⟨7, 0, 3, 1⟩⟩) 0 =
      .error .numberGreaterThanZero :=
  ⟨(c9_batch_generation 5 (fun _ => ⟨2, Gender.female, ⟨7, 0, 3, 1⟩⟩) 3
      (by norm_num) (fun _ => by norm_num)).2 (by norm_num),
   (c9_batch_generation 5 (fun _ => ⟨2, Gender.female, ⟨7, 0, 3, 1⟩⟩) 0
      (by norm_num) (fun _ => by norm_num)).1.mpr (by norm_num)⟩

/-- C10: Noninterference of the random digits — two checksum-passing
10-digit inputs that agree on digits 0-4 and on digit 8 (but may differ on
digits 5-7 and on the control digit) decode to the same gender and the
same birthday: the middle digits influence only validity, never the
decoded result. -/
theorem c10_random_digits_noninterference
    (d0 d1 d2 d3 d4 x5 x6 x7 d8 x9 y5 y6 y7 y9 : Nat)
    (h0 : d0 ≤ 9) (h1 : d1 ≤ 9) (h2 : d2 ≤ 9) (h3 : d3 ≤ 9) (h4 : d4 ≤ 9)
    (hx5 : x5 ≤ 9) (hx6 : x6 ≤ 9) (hx7 : x7 ≤ 9) (h8 : d8 ≤ 9) (hx9 : x9 ≤ 9)
    (hy5 : y5 ≤ 9) (hy6 : y6 ≤ 9) (hy7 : y7 ≤ 9) (hy9 : y9 ≤ 9)
    (hcx : (x9 : Int) = _calculate_control_digit [d0, d1, d2, d3, d4, x5, x6, x7, d8])
    (hcy : (y9 : Int) = _calculate_control_digit [d0, d1, d2, d3, d4, y5, y6, y7, d8]) :
    ∃ det1 det2,
      get_details (renderDigits [d0, d1, d2, d3, d4, x5, x6, x7, d8, x9]) = .ok det1 ∧
      get_details (renderDigits [d0, d1, d2, d3, d4, y5, y6, y7, d8, y9]) = .ok det2 ∧
      det1.gender = det2.gender ∧ det1.birthday = det2.birthday :=
  ⟨_, _,
    get_details_renderDigits d0 d1 d2 d3 d4 x5 x6 x7 d8 x9 (by omega) (by omega)
      (by omega) (by omega) (by omega) (by omega) (by omega) (by omega) (by omega)
      (by omega) hcx,
    get_details_renderDigits d0 d1 d2 d3 d4 y5 y6 y7 d8 y9 (by omega) (by omega)
      (by omega) (by omega) (by omega) (by omega) (by omega) (by omega) (by omega)
      (by omega) hcy,
    rfl, rfl⟩

/-- Witness for C10 at the valid numbers `"0000100010"` and `"0000110016"`,
which agree on digits 0-4 and 8 and differ on digit 5 and the control
digit. -/
theorem c10_random_digits_noninterference_witness :
    ∃ det1 det2,
      get_details (renderDigits [0, 0, 0, 0, 1, 0, 0, 0, 1, 0]) = .ok det1 ∧
      get_details (renderDigits [0, 0, 0, 0, 1, 1, 0, 0, 1, 6]) = .ok det2 ∧
      det1.gender = det2.gender ∧ det1.birthday = det2.birthday :=
  c10_random_digits_noninterference 0 0 0 0 1 0 0 0 1 0 1 0 0 6 (by norm_num)
    (by norm_num) (by norm_num) (by norm_num) (by norm_num) (by norm_num)
    (by norm_num) (by norm_num) (by norm_num) (by norm_num) (by norm_num)
    (by norm_num) (by norm_num) (by norm_num) (by decide) (by decide)
